import Mathlib

/-!
NeuroFit+ prediction pipeline: a shallow embedding of the core components
(feature-vector builder, manifest validator, scoring engine, frontend
handlers) together with theorems about them. Numeric values are modelled
as rationals; JSON values of unknown shape are modelled by `JsonVal`.
-/

namespace NeuroFit

/-- A JSON scalar as it may appear in a session payload: a number, a string,
a boolean, or null. Non-numeric values stand for malformed numeric fields. -/
inductive JsonVal where
  | num (q : ℚ)
  | str (s : String)
  | boolean (b : Bool)
  | null
deriving DecidableEq

/-- Numeric coercion used by the feature extractor: a number is read as-is,
anything else (malformed numeric field) defaults to 0. -/
def JsonVal.toNum : JsonVal → ℚ
  | .num q => q
  | _ => 0

/-- The `answers` field of a session payload: either a list of
question_id/value objects or a mapping from name to value (modelled as an
association list). Both shapes are valid inputs. -/
inductive Answers where
  | list (l : List (String × JsonVal))
  | dict (m : List (String × JsonVal))
deriving DecidableEq

/-- Lookup in a mapping (association list): first matching key. -/
def mapLookup (m : List (String × JsonVal)) (k : String) : Option JsonVal :=
  (m.find? (fun p => p.1 == k)).map Prod.snd

/-- Lookup of a key in a list-of-objects `answers`, with the semantics of a
Python dict comprehension over the list: the last entry with the key wins. -/
def listLookup (l : List (String × JsonVal)) (k : String) : Option JsonVal :=
  (l.reverse.find? (fun p => p.1 == k)).map Prod.snd

/-- Modelled from the spec: the answers-normalization adapter of the missing
backend `extract_features` (backend/app sources are not in the repository
snapshot). Normalizes either shape of `answers` to a mapping from question id
to numeric value; unknown keys are ignored, missing keys default to 0. -/
def Answers.normalize : Answers → String → ℚ
  | .list l, k =>
    match listLookup l k with
    | some v => v.toNum
    | none => 0
  | .dict m, k =>
    match mapLookup m k with
    | some v => v.toNum
    | none => 0

/-- The `typing_features` section of a session payload. Each field is
optional and may hold a malformed (non-numeric) value. -/
structure TypingFeatures where
  average_latency_ms : Option JsonVal := none
  total_duration_ms : Option JsonVal := none
  backspace_rate : Option JsonVal := none
  accuracy : Option JsonVal := none
deriving DecidableEq

/-- The `task_performance` section of a session payload. -/
structure TaskPerformance where
  reaction_time_ms : Option JsonVal := none
  reaction_attempted : Option Bool := none
  reaction_times : Option (List JsonVal) := none
deriving DecidableEq

/-- A session payload as received by the backend. -/
structure SessionPayload where
  user_id : Option String := none
  timestamp : String := ("")
  answers : Answers := Answers.dict []
  typing_features : Option TypingFeatures := none
  task_performance : Option TaskPerformance := none
deriving DecidableEq

/-- The fixed, ordered 8-field feature vector. -/
structure FeatureVector where
  sleep_hours : ℚ
  energy_level : ℚ
  stress_level : ℚ
  avg_key_latency_ms : ℚ
  total_duration_ms : ℚ
  backspace_rate : ℚ
  reaction_time_ms : ℚ
  reaction_attempted : ℚ
deriving DecidableEq

/-- The canonical wire order of the 8 features. -/
def FeatureVector.toList (f : FeatureVector) : List ℚ :=
  [f.sleep_hours, f.energy_level, f.stress_level, f.avg_key_latency_ms,
   f.total_duration_ms, f.backspace_rate, f.reaction_time_ms,
   f.reaction_attempted]

/-- Read an optional JSON field as a number, defaulting to 0 when the field
is absent or malformed. -/
def optNum (o : Option JsonVal) : ℚ :=
  match o with
  | some v => v.toNum
  | none => 0

/-- Modelled from the spec: the missing backend `extract_features` / feature
vector builder (backend/app sources are not in the repository snapshot).
Total function: missing or malformed numeric fields default to 0;
`reaction_attempted` is 1 when a reaction time is present or the attempted
flag is true, else 0. -/
def build (p : SessionPayload) : FeatureVector :=
  let amap := p.answers.normalize
  { sleep_hours := amap ("sleep_hours")
    energy_level := amap ("energy_level")
    stress_level := amap ("stress_level")
    avg_key_latency_ms :=
      match p.typing_features with
      | some t => optNum t.average_latency_ms
      | none => 0
    total_duration_ms :=
      match p.typing_features with
      | some t => optNum t.total_duration_ms
      | none => 0
    backspace_rate :=
      match p.typing_features with
      | some t => optNum t.backspace_rate
      | none => 0
    reaction_time_ms :=
      match p.task_performance with
      | some t => optNum t.reaction_time_ms
      | none => 0
    reaction_attempted :=
      match p.task_performance with
      | some t =>
        if t.reaction_time_ms.isSome ∨ t.reaction_attempted = some true
        then 1 else 0
      | none => 0 }

/-- A loaded classifier artifact: its expected input width (n_features_in_)
and its probability-estimation interface (probability of the fatigued
class for a feature row). -/
structure Classifier where
  expected_input_width : Nat
  predictProba : List ℚ → ℚ

/-- The training manifest recorded next to the classifier artifact. -/
structure ModelManifest where
  model_version : String := ("")
  train_date : String := ("")
  dataset_hash : String := ("")
  numpy_version : String := ("")
  sklearn_version : String := ("")
  feature_names : List String := []
  notes : String := ("")

/-- The environment the startup validator inspects: the two artifact files
(absent file modelled as `none`) and the runtime library versions. -/
structure StartupEnv where
  modelFile : Option Classifier := none
  manifestFile : Option ModelManifest := none
  runtimeNumpy : String := ("")
  runtimeSklearn : String := ("")

/-- Outcome of manifest validation. -/
structure ValidationResult where
  ok : Bool
  reason : Option String := none
deriving DecidableEq

/-- Modelled from the spec: the missing shared manifest validator
(backend/ci/validate_model.py and the startup-time caller are not in the
repository snapshot). All checks must pass for ok=true: both files present,
non-empty feature_names, classifier width equal to the feature-name count,
and exact string equality of numpy/sklearn versions with the runtime. -/
def validate (env : StartupEnv) : ValidationResult :=
  match env.modelFile, env.manifestFile with
  | none, _ => { ok := false, reason := some ("model file missing") }
  | some _, none => { ok := false, reason := some ("manifest file missing") }
  | some c, some m =>
    if m.feature_names = [] then
      { ok := false, reason := some ("manifest feature_names empty") }
    else if c.expected_input_width ≠ m.feature_names.length then
      { ok := false, reason := some ("feature count mismatch") }
    else if m.numpy_version ≠ env.runtimeNumpy then
      { ok := false, reason := some ("numpy version mismatch") }
    else if m.sklearn_version ≠ env.runtimeSklearn then
      { ok := false, reason := some ("sklearn version mismatch") }
    else
      { ok := true, reason := none }

/-- The process-wide read-only state established at startup: the cached
validation outcome and the classifier, if loading was allowed. -/
structure ServiceState where
  validation : ValidationResult
  classifier : Option Classifier

/-- Modelled from the spec: the missing service-startup sequence (backend
app sources are not in the repository snapshot). A failed validation aborts
model loading and leaves the service in heuristic-only mode; it never
fails the startup itself (the `Except` error constructor would model a
crash and is never produced). -/
def startup (env : StartupEnv) : Except String ServiceState :=
  let v := validate env
  if v.ok then Except.ok { validation := v, classifier := env.modelFile }
  else Except.ok { validation := v, classifier := none }

/-- Risk level of a score. -/
inductive RiskLevel where
  | low
  | medium
  | high
deriving DecidableEq

/-- Which scoring mode produced a result. -/
inductive ModelUsed where
  | ml_model
  | heuristic
deriving DecidableEq

/-- Named threshold between the low and medium risk buckets. -/
def LOW_MEDIUM_THRESHOLD : ℚ := 33

/-- Named threshold between the medium and high risk buckets. -/
def MEDIUM_HIGH_THRESHOLD : ℚ := 67

/-- Modelled from the spec: the missing risk-bucketing step of the scoring
engine. score < 33 is low, 33 ≤ score < 67 is medium, score ≥ 67 is high. -/
def bucket (s : ℚ) : RiskLevel :=
  if s < LOW_MEDIUM_THRESHOLD then RiskLevel.low
  else if s < MEDIUM_HIGH_THRESHOLD then RiskLevel.medium
  else RiskLevel.high

/-- A fatal per-request error raised when a feature row of the wrong width
would reach the classifier; it records both widths and a message naming
them. -/
structure ShapeMismatchError where
  got : Nat
  expected : Nat
  message : String
deriving DecidableEq

/-- The literal error message, as shown in docs/api-examples.md. -/
def shapeMismatchMessage (got expected : Nat) : String :=
  ("X has ") ++ toString got ++
  (" features, but RandomForestClassifier is expecting ") ++ toString expected

/-- Modelled from the spec: the missing ML-mode prediction step. A feature
row whose width differs from the classifier's expected input width raises a
shape-mismatch error naming both widths; it is never truncated or padded. -/
def mlPredict (c : Classifier) (xs : List ℚ) : Except ShapeMismatchError ℚ :=
  if xs.length = c.expected_input_width then Except.ok (c.predictProba xs)
  else
    Except.error
      { got := xs.length
        expected := c.expected_input_width
        message := shapeMismatchMessage xs.length c.expected_input_width }

/-- Clamp a raw heuristic combination into the score range [0, 100]. -/
def clampScore (q : ℚ) : ℚ := max 0 (min 100 q)

/-- Modelled from the spec: the missing deterministic heuristic scorer
(exact coefficients are an implementation choice documented here as the
heuristic contract). Low sleep, low energy, high stress, high latency, high
backspace rate and slow or missing reaction all push the score upward. -/
def heuristicScore (f : FeatureVector) : ℚ :=
  clampScore
    ((24 - min f.sleep_hours 24) * 2
      + (10 - min f.energy_level 10) * 3
      + min f.stress_level 10 * 3
      + f.avg_key_latency_ms / 50
      + f.backspace_rate * 50
      + f.reaction_time_ms / 100
      + (1 - min f.reaction_attempted 1) * 10)

/-- Modelled from the spec: the fixed recommendation catalog keyed by
feature concern thresholds; at least one entry is always returned. -/
def recommend (f : FeatureVector) (s : ℚ) : List String :=
  let tips :=
    (if f.sleep_hours < 7 then
      [("Aim for 7-9 hours of sleep for optimal recovery")] else [])
    ++ (if f.stress_level > 6 then
      [("Try a short relaxation exercise to reduce stress")] else [])
    ++ (if f.avg_key_latency_ms > 200 then
      [("Take a short break from screen work")] else [])
  if s < LOW_MEDIUM_THRESHOLD then
    ("Low fatigue levels - you are well recovered") :: tips
  else if s < MEDIUM_HIGH_THRESHOLD then
    ("Moderate fatigue - consider a short rest") :: tips
  else
    ("High fatigue - prioritize rest and recovery") :: tips

/-- The result of a scoring call. -/
structure ScoreResult where
  fatigue_score : ℚ
  risk_level : RiskLevel
  recommendations : List String
  timestamp : String
  model_used : ModelUsed
deriving DecidableEq

/-- Per-request ambient state a non-deterministic implementation could read:
a random seed and the current clock. The scoring engine is given it so that
independence of the score from it is a provable statement. -/
structure Env where
  rngSeed : Nat := 0
  now : String := ("")

/-- The heuristic-mode score result (timestamp comes from the environment
clock; the score itself depends only on the features). -/
def heuristicResult (env : Env) (f : FeatureVector) : ScoreResult :=
  { fatigue_score := heuristicScore f
    risk_level := bucket (heuristicScore f)
    recommendations := recommend f (heuristicScore f)
    timestamp := env.now
    model_used := ModelUsed.heuristic }

/-- Modelled from the spec: the missing scoring engine entry point. ML mode
is used only when the cached validation succeeded and a classifier is
loaded; otherwise the deterministic heuristic is used and recorded in
model_used. -/
def score (env : Env) (st : ServiceState) (f : FeatureVector) :
    Except ShapeMismatchError ScoreResult :=
  match st.classifier, st.validation.ok with
  | some c, true =>
    (mlPredict c f.toList).map (fun p =>
      { fatigue_score := p * 100
        risk_level := bucket (p * 100)
        recommendations := recommend f (p * 100)
        timestamp := env.now
        model_used := ModelUsed.ml_model })
  | some _, false => Except.ok (heuristicResult env f)
  | none, _ => Except.ok (heuristicResult env f)

/-- The step the frontend App moves to after the reaction test completes:
either the results screen with the prediction response, or the error
screen with a message (src/frontend/src/App.jsx). -/
inductive AppStep where
  | results (r : ScoreResult)
  | failed (msg : String)
deriving DecidableEq

/-- Embedding of `handleReactionComplete` in src/frontend/src/App.jsx:
the session save runs inside its own try/catch whose catch only logs a
warning, so execution continues to the prediction call regardless of the
save outcome; the prediction outcome alone decides the resulting step. -/
def handleReactionComplete (saveResult : Except String Unit)
    (predictResult : Except String ScoreResult) : AppStep :=
  match saveResult, predictResult with
  | _, Except.ok r => AppStep.results r
  | _, Except.error e => AppStep.failed e

/-- The fixed target text of the typing test (src/unnamed/part_000). -/
def targetText : String := ("The quick brown fox jumps over the lazy dog")

/-- Embedding of the accuracy loop of TypingLatency.handleChange: count
positions below both lengths where the typed and target characters agree. -/
def countCorrectChars (value target : String) : Nat :=
  ((value.toList.zip target.toList).filter (fun p => p.1 == p.2)).length

/-- accuracy = correct characters / target length, as in the source. -/
def typingAccuracy (value target : String) : ℚ :=
  (countCorrectChars value target : ℚ) / (target.length : ℚ)

/-- The object emitted by the typing test on completion: exactly the three
fields written in src/unnamed/part_000; there is no backspace_rate field. -/
structure TypingEmit where
  average_latency_ms : ℚ
  total_duration_ms : ℚ
  accuracy : ℚ
deriving DecidableEq

/-- Embedding of TypingLatency.handleChange (src/unnamed/part_000),
restricted to its completion behaviour: given the component state and the
new input value, the `typing_features` object passed to onComplete, or
`none` when onComplete does not fire. -/
def handleTypingChange (isActive : Bool) (startTime : Option ℚ) (now : ℚ)
    (latencies : List ℚ) (target value : String) : Option TypingEmit :=
  match isActive, startTime with
  | false, _ => none
  | true, none => none
  | true, some st =>
    if value = target then
      let totalTime := now - st
      let averageLatency :=
        if 0 < latencies.length then latencies.sum / (latencies.length : ℚ)
        else totalTime / (target.length : ℚ)
      some
        { average_latency_ms := averageLatency
          total_duration_ms := totalTime
          accuracy := typingAccuracy value target }
    else none

/-- The payload section a frontend typing emission becomes when the session
JSON reaches the backend: the three emitted fields are present and the
backspace_rate field is absent. -/
def emitToTypingFeatures (e : TypingEmit) : TypingFeatures :=
  { average_latency_ms := some (JsonVal.num e.average_latency_ms)
    total_duration_ms := some (JsonVal.num e.total_duration_ms)
    backspace_rate := none
    accuracy := some (JsonVal.num e.accuracy) }

/-- A questionnaire question: id and accepted numeric range
(src/frontend/src/components/Questionnaire.jsx). -/
structure Question where
  id : String
  lo : ℚ
  hi : ℚ

/-- The three questionnaire questions, in source order with their ranges. -/
def questions : List Question :=
  [{ id := ("sleep_hours"), lo := 0, hi := 24 },
   { id := ("energy_level"), lo := 0, hi := 10 },
   { id := ("stress_level"), lo := 0, hi := 10 }]

/-- Embedding of Questionnaire.validateInput: empty or unparseable input is
an error, as is a parsed value outside [lo, hi]; `parse` abstracts
JavaScript parseFloat, with `none` standing for NaN. -/
def validateInput (parse : String → Option ℚ) (q : Question)
    (value : String) : Option String :=
  if value = ("") then some (q.id ++ (" is required"))
  else
    match parse value with
    | none => some (q.id ++ (" is required"))
    | some n =>
      if n < q.lo ∨ n > q.hi then
        some (("Please enter a value between the bounds"))
      else none

/-- Embedding of Questionnaire.handleSubmit: validate every question; on
any error do not fire onComplete (`none`); otherwise emit the formatted
answers list built by mapping over the questions in order. -/
def handleSubmit (parse : String → Option ℚ) (answers : String → String) :
    Option (List (String × ℚ)) :=
  if questions.all (fun q => (validateInput parse q (answers q.id)).isNone)
  then some (questions.map (fun q => (q.id, (parse (answers q.id)).getD 0)))
  else none

/-- The canonical ordered feature names recorded in the manifest. -/
def canonicalFeatureNames : List String :=
  [("sleep_hours"), ("energy_level"), ("stress_level"),
   ("avg_key_latency_ms"), ("total_duration_ms"), ("backspace_rate"),
   ("reaction_time_ms"), ("reaction_attempted")]

/-- A concrete width-8 classifier used as a test fixture. -/
def demoClassifier : Classifier :=
  { expected_input_width := 8, predictProba := fun _ => 1 / 2 }

/-- A concrete manifest fixture matching docs/api-examples.md. -/
def demoManifest : ModelManifest :=
  { model_version := ("2025-12-06T16:32:55.484185Z")
    train_date := ("2025-12-06T16:32:55.484401Z")
    dataset_hash := ("3e636b4a")
    numpy_version := ("1.26.4")
    sklearn_version := ("1.4.2")
    feature_names := canonicalFeatureNames
    notes := ("RandomForestClassifier trained on NeuroFit+ session data") }

/-- Scenario B fixture: manifest numpy 1.26.4 but runtime numpy 1.26.3,
classifier file present. -/
def scenarioBEnv : StartupEnv :=
  { modelFile := some demoClassifier
    manifestFile := some demoManifest
    runtimeNumpy := ("1.26.3")
    runtimeSklearn := ("1.4.2") }

/-- A startup environment where every check passes. -/
def matchedEnv : StartupEnv :=
  { modelFile := some demoClassifier
    manifestFile := some demoManifest
    runtimeNumpy := ("1.26.4")
    runtimeSklearn := ("1.4.2") }

/-- The feature vector of end-to-end scenario A. -/
def demoFeatures : FeatureVector :=
  { sleep_hours := 7
    energy_level := 3
    stress_level := 2
    avg_key_latency_ms := 120
    total_duration_ms := 5000
    backspace_rate := 3 / 100
    reaction_time_ms := 350
    reaction_attempted := 1 }

/-- Two environments with different seeds and clocks. -/
def demoEnv1 : Env := { rngSeed := 0, now := ("2025-01-01T00:00:00") }

/-- Second environment, differing from the first in seed and clock. -/
def demoEnv2 : Env := { rngSeed := 1, now := ("2025-01-02T12:34:56") }

/-- A heuristic-only service state (no classifier loaded). -/
def heuristicOnlyState : ServiceState :=
  { validation := { ok := false, reason := some ("model file missing") }
    classifier := none }

/-- The typing emission of a run that typed the target in 5000 ms with no
recorded latencies. -/
def demoTypingEmit : TypingEmit :=
  { average_latency_ms := 5000 / 43
    total_duration_ms := 5000
    accuracy := 1 }

/-- A session payload whose typing section is a frontend typing emission. -/
def demoTypingPayload : SessionPayload :=
  { timestamp := ("2025-01-01T00:00:00Z")
    answers := Answers.dict []
    typing_features := some (emitToTypingFeatures demoTypingEmit) }

/-- A payload with no typing and no task-performance section. -/
def emptyPayload : SessionPayload :=
  { timestamp := ("2025-01-01T00:00:00Z") }

/-- An all-defaults base payload used in the list/dict equivalence witness. -/
def basePayload : SessionPayload := {}

/-- Concrete answers used in the list/dict equivalence witness. -/
def demoAnswersList : List (String × JsonVal) :=
  [(("sleep_hours"), JsonVal.num 7),
   (("energy_level"), JsonVal.num 3),
   (("stress_level"), JsonVal.num 2)]

/-- A concrete parse function fixture standing for JavaScript parseFloat. -/
def demoParse : String → Option ℚ := fun s =>
  if s = ("7") then some 7
  else if s = ("5") then some 5
  else if s = ("3") then some 3
  else none

/-- Concrete questionnaire input strings. -/
def demoAnswerStrings : String → String := fun k =>
  if k = ("sleep_hours") then ("7")
  else if k = ("energy_level") then ("5")
  else ("3")

/-- Claim C2: whenever the manifest numpy or sklearn version differs from
the runtime version (exact string comparison), validate returns ok=false,
regardless of the other inputs; and when every check passes, including
exact version equality, validate returns ok=true. -/
theorem version_mismatch_invalidates :
    (∀ (env : StartupEnv) (m : ModelManifest), env.manifestFile = some m →
      (m.numpy_version ≠ env.runtimeNumpy ∨
        m.sklearn_version ≠ env.runtimeSklearn) →
      (validate env).ok = false) ∧
    (∀ (env : StartupEnv) (c : Classifier) (m : ModelManifest),
      env.modelFile = some c → env.manifestFile = some m →
      m.feature_names ≠ [] →
      c.expected_input_width = m.feature_names.length →
      m.numpy_version = env.runtimeNumpy →
      m.sklearn_version = env.runtimeSklearn →
      (validate env).ok = true) := by
  constructor
  · intro env m hm hver
    obtain ⟨mf, ma, rn, rs⟩ := env
    simp only at hm hver
    subst hm
    cases mf with
    | none => rfl
    | some c =>
      simp only [validate]
      split_ifs with h1 h2 h3 h4 <;> try rfl
      cases hver with
      | inl h => exact absurd h h3
      | inr h => exact absurd h h4
  · intro env c m hc hm hfe hw hnp hsk
    obtain ⟨mf, ma, rn, rs⟩ := env
    simp only at hc hm hnp hsk
    subst hc
    subst hm
    simp only [validate]
    split_ifs with h1 h2 h3 h4
    · exact absurd h1 hfe
    · exact absurd hw h2
    · exact absurd hnp h3
    · exact absurd hsk h4
    · rfl

/-- Claim C2 witness: scenario B's version-mismatched environment fails
validation; the fully matched environment passes. -/
theorem version_mismatch_invalidates_witness :
    (validate scenarioBEnv).ok = false ∧ (validate matchedEnv).ok = true := by
  constructor
  · exact version_mismatch_invalidates.1 scenarioBEnv demoManifest rfl
      (Or.inl (by decide))
  · exact version_mismatch_invalidates.2 matchedEnv demoClassifier
      demoManifest rfl rfl (by decide) (by decide) rfl rfl

/-- Claim C3: a feature row whose width differs from the classifier's
expected input width makes ML-mode prediction fail with a shape-mismatch
error carrying both widths and a message naming them; the row is never
coerced to fit (the result is exactly this error, never a prediction). -/
theorem shape_mismatch_fatal :
    ∀ (c : Classifier) (xs : List ℚ),
      xs.length ≠ c.expected_input_width →
      mlPredict c xs =
        Except.error
          { got := xs.length
            expected := c.expected_input_width
            message :=
              shapeMismatchMessage xs.length c.expected_input_width } := by
  intro c xs h
  unfold mlPredict
  rw [if_neg h]

/-- Claim C3 witness: a width-7 row presented to the width-8 classifier
yields the shape-mismatch error naming 7 and 8. -/
theorem shape_mismatch_fatal_witness :
    mlPredict demoClassifier [1, 1, 1, 1, 1, 1, 1] =
      Except.error
        { got := 7, expected := 8, message := shapeMismatchMessage 7 8 } :=
  shape_mismatch_fatal demoClassifier [1, 1, 1, 1, 1, 1, 1] (by decide)

/-- Claim C4: risk bucketing maps score < 33 to low, 33 ≤ score < 67 to
medium and score ≥ 67 to high (thresholds are the named constants). -/
theorem risk_bucket_thresholds :
    ∀ s : ℚ,
      (s < LOW_MEDIUM_THRESHOLD → bucket s = RiskLevel.low) ∧
      (LOW_MEDIUM_THRESHOLD ≤ s → s < MEDIUM_HIGH_THRESHOLD →
        bucket s = RiskLevel.medium) ∧
      (MEDIUM_HIGH_THRESHOLD ≤ s → bucket s = RiskLevel.high) := by
  intro s
  refine ⟨fun h => ?_, fun h1 h2 => ?_, fun h => ?_⟩
  · simp only [bucket]
    rw [if_pos h]
  · simp only [bucket]
    rw [if_neg (not_lt.mpr h1), if_pos h2]
  · have h33 : ¬s < LOW_MEDIUM_THRESHOLD := by
      refine not_lt.mpr (le_trans ?_ h)
      norm_num [LOW_MEDIUM_THRESHOLD, MEDIUM_HIGH_THRESHOLD]
    simp only [bucket]
    rw [if_neg h33, if_neg (not_lt.mpr h)]

/-- Claim C4 witness: the boundary scores 33.0 and 66.999 map to medium and
67.0 maps to high. -/
theorem risk_bucket_thresholds_witness :
    bucket 33 = RiskLevel.medium ∧
    bucket (66999 / 1000) = RiskLevel.medium ∧
    bucket 67 = RiskLevel.high :=
  ⟨(risk_bucket_thresholds 33).2.1 (by norm_num [LOW_MEDIUM_THRESHOLD])
      (by norm_num [MEDIUM_HIGH_THRESHOLD]),
   (risk_bucket_thresholds (66999 / 1000)).2.1
      (by norm_num [LOW_MEDIUM_THRESHOLD])
      (by norm_num [MEDIUM_HIGH_THRESHOLD]),
   (risk_bucket_thresholds 67).2.2 (by norm_num [MEDIUM_HIGH_THRESHOLD])⟩

/-- Claim C1: for every startup environment whose validation fails, startup
succeeds (no crash) with model loading aborted (no classifier held), and
every subsequent score call returns a result whose model_used is
heuristic. -/
theorem validate_fail_forces_heuristic :
    ∀ env : StartupEnv, (validate env).ok = false →
      ∃ st : ServiceState, startup env = Except.ok st ∧
        st.classifier = none ∧
        ∀ (e : Env) (f : FeatureVector), ∃ r : ScoreResult,
          score e st f = Except.ok r ∧
          r.model_used = ModelUsed.heuristic := by
  intro env h
  refine ⟨{ validation := validate env, classifier := none }, ?_, rfl, ?_⟩
  · simp [startup, h]
  · intro e f
    exact ⟨heuristicResult e f, by simp [score], rfl⟩

/-- Claim C1 witness: scenario B (runtime numpy 1.26.3, manifest numpy
1.26.4, classifier file present) fails validation, startup still succeeds
without a classifier, and scoring is heuristic. -/
theorem validate_fail_forces_heuristic_witness :
    (validate scenarioBEnv).ok = false ∧
    ∃ st : ServiceState, startup scenarioBEnv = Except.ok st ∧
      st.classifier = none ∧
      ∀ (e : Env) (f : FeatureVector), ∃ r : ScoreResult,
        score e st f = Except.ok r ∧ r.model_used = ModelUsed.heuristic :=
  ⟨by decide, validate_fail_forces_heuristic scenarioBEnv (by decide)⟩

/-- Claim C7: heuristic scoring is pure and deterministic: with no
classifier loaded, two score calls under any two ambient environments
(different seeds, different clocks) both succeed in heuristic mode with
the same fatigue score, which equals the deterministic heuristic of the
feature vector. -/
theorem heuristic_score_deterministic :
    ∀ (e1 e2 : Env) (st : ServiceState) (f : FeatureVector),
      st.classifier = none →
      ∃ r1 r2 : ScoreResult,
        score e1 st f = Except.ok r1 ∧ score e2 st f = Except.ok r2 ∧
        r1.model_used = ModelUsed.heuristic ∧
        r2.model_used = ModelUsed.heuristic ∧
        r1.fatigue_score = r2.fatigue_score ∧
        r1.fatigue_score = heuristicScore f := by
  intro e1 e2 st f h
  obtain ⟨v, c⟩ := st
  simp only at h
  subst h
  exact ⟨heuristicResult e1 f, heuristicResult e2 f,
    by simp [score], by simp [score], rfl, rfl, rfl, rfl⟩

/-- Claim C7 witness: two calls on the scenario-A feature vector under
different seeds and clocks yield the same heuristic fatigue score. -/
theorem heuristic_score_deterministic_witness :
    ∃ r1 r2 : ScoreResult,
      score demoEnv1 heuristicOnlyState demoFeatures = Except.ok r1 ∧
      score demoEnv2 heuristicOnlyState demoFeatures = Except.ok r2 ∧
      r1.model_used = ModelUsed.heuristic ∧
      r2.model_used = ModelUsed.heuristic ∧
      r1.fatigue_score = r2.fatigue_score ∧
      r1.fatigue_score = heuristicScore demoFeatures :=
  heuristic_score_deterministic demoEnv1 demoEnv2 heuristicOnlyState
    demoFeatures rfl

/-- Claim C8: the outcome of the in-flight prediction request is the same
whether the preceding session save succeeded or failed: the save error is
caught locally in handleReactionComplete and the resulting step depends
only on the prediction outcome. -/
theorem save_failure_no_outcome_change :
    ∀ (s1 s2 : Except String Unit) (p : Except String ScoreResult),
      handleReactionComplete s1 p = handleReactionComplete s2 p := by
  intro s1 s2 p
  cases s1 <;> cases s2 <;> cases p <;> rfl

/-- Claim C6: build is total (it is a function into FeatureVector, so it
never fails); a payload with no typing_features yields 0 for the three
typing-derived fields, a payload with no task_performance yields 0 for the
two reaction fields, any malformed (non-numeric) JSON value reads as 0,
and a missing answer key reads as 0. -/
theorem build_total_defaults :
    ∀ p : SessionPayload,
      (p.typing_features = none →
        (build p).avg_key_latency_ms = 0 ∧
        (build p).total_duration_ms = 0 ∧
        (build p).backspace_rate = 0) ∧
      (p.task_performance = none →
        (build p).reaction_time_ms = 0 ∧
        (build p).reaction_attempted = 0) ∧
      (∀ v : JsonVal, (∀ q : ℚ, v ≠ JsonVal.num q) → v.toNum = 0) ∧
      (∀ k : String, (Answers.dict []).normalize k = 0) := by
  intro p
  refine ⟨fun h => ?_, fun h => ?_, fun v hv => ?_, fun k => rfl⟩
  · exact ⟨by simp [build, h], by simp [build, h], by simp [build, h]⟩
  · exact ⟨by simp [build, h], by simp [build, h]⟩
  · cases v with
    | num q => exact absurd rfl (hv q)
    | str s => rfl
    | boolean b => rfl
    | null => rfl

/-- Claim C6 witness: the payload with both sections missing builds to a
vector with zeros in all five derived fields, and a string value reads
as 0. -/
theorem build_total_defaults_witness :
    (build emptyPayload).avg_key_latency_ms = 0 ∧
    (build emptyPayload).total_duration_ms = 0 ∧
    (build emptyPayload).backspace_rate = 0 ∧
    (build emptyPayload).reaction_time_ms = 0 ∧
    (build emptyPayload).reaction_attempted = 0 ∧
    (JsonVal.str ("not a number")).toNum = 0 := by
  have h := build_total_defaults emptyPayload
  have h1 := h.1 rfl
  have h2 := h.2.1 rfl
  exact ⟨h1.1, h1.2.1, h1.2.2, h2.1, h2.2,
    h.2.2.1 (JsonVal.str ("not a number"))
      (fun q hq => JsonVal.noConfusion hq)⟩

/-- For any list zipped with itself, every pair agrees, so the agreeing
pairs are the whole list. -/
theorem zip_self_filter_length :
    ∀ l : List Char, ((l.zip l).filter (fun p => p.1 == p.2)).length
      = l.length := by
  intro l
  induction l with
  | nil => rfl
  | cons a t ih =>
    simp only [List.zip_cons_cons, List.filter_cons]
    rw [if_pos (by simp)]
    simp [ih]

/-- Typing the target exactly counts every target character as correct. -/
theorem countCorrectChars_self (s : String) :
    countCorrectChars s s = s.length := by
  unfold countCorrectChars
  rw [zip_self_filter_length]
  rfl

/-- Claim C9: the typing test emits its typing_features only when the typed
text equals the target character for character; the emitted accuracy is 1
(for the non-empty target); and because the emitted object has no
backspace_rate field, the backend builds backspace_rate = 0 from any
session carrying it. -/
theorem typing_complete_accuracy :
    ∀ (isActive : Bool) (startTime : Option ℚ) (now : ℚ)
      (latencies : List ℚ) (target value : String) (e : TypingEmit),
      handleTypingChange isActive startTime now latencies target value
        = some e →
      value = target ∧
      (target.length ≠ 0 → e.accuracy = 1) ∧
      ∀ p : SessionPayload,
        p.typing_features = some (emitToTypingFeatures e) →
        (build p).backspace_rate = 0 := by
  intro isActive startTime now latencies target value e h
  cases isActive with
  | false => exact absurd h (by simp [handleTypingChange])
  | true =>
    cases startTime with
    | none => exact absurd h (by simp [handleTypingChange])
    | some st =>
      simp only [handleTypingChange] at h
      split at h
      case isTrue hv =>
        refine ⟨hv, fun hlen => ?_, fun p hp => ?_⟩
        · have he : e.accuracy = typingAccuracy value target := by
            cases h.symm
            rfl
          rw [he, hv]
          unfold typingAccuracy
          rw [countCorrectChars_self]
          exact div_self (Nat.cast_ne_zero.mpr hlen)
        · simp [build, hp, emitToTypingFeatures, optNum]
      case isFalse hv => exact absurd h (by simp)

/-- Claim C9 witness: a completed run over the concrete target text emits
accuracy 1, and the backend builds backspace_rate = 0 from the session
payload carrying that emission. -/
theorem typing_complete_accuracy_witness :
    demoTypingEmit.accuracy = 1 ∧
    (build demoTypingPayload).backspace_rate = 0 := by
  have hl : targetText.length = 43 := by decide
  have hacc : typingAccuracy targetText targetText = 1 := by
    unfold typingAccuracy
    rw [countCorrectChars_self, hl]
    norm_num
  have hrun : handleTypingChange true (some 0) 5000 [] targetText targetText
      = some demoTypingEmit := by
    simp only [handleTypingChange, List.length_nil, lt_self_iff_false,
      if_false, if_pos rfl, hacc, hl, demoTypingEmit]
    norm_num
  have h := typing_complete_accuracy true (some 0) 5000 [] targetText
    targetText demoTypingEmit hrun
  exact ⟨h.2.1 (by decide), h.2.2 demoTypingPayload rfl⟩

/-- When the keys of an association list are distinct, searching it from
the back (Python dict-comprehension semantics, last entry wins) finds the
same entry as searching it from the front. -/
theorem find?_reverse_nodup_keys :
    ∀ (l : List (String × JsonVal)) (k : String),
      (l.map Prod.fst).Nodup →
      l.reverse.find? (fun p => p.1 == k) = l.find? (fun p => p.1 == k) := by
  intro l k h
  induction l with
  | nil => rfl
  | cons a t ih =>
    rw [List.map_cons] at h
    have hnod := List.nodup_cons.mp h
    rw [List.reverse_cons, List.find?_append]
    by_cases hk : (a.1 == k) = true
    · have hnone : t.reverse.find? (fun p => p.1 == k) = none := by
        rw [List.find?_eq_none]
        intro x hx hpx
        have hxk : x.1 = k := by simpa using hpx
        have hak : a.1 = k := by simpa using hk
        refine absurd ?_ hnod.1
        rw [hak, ← hxk]
        exact List.mem_map_of_mem Prod.fst (List.mem_reverse.mp hx)
      rw [hnone]
      simp [List.find?, hk]
    · have hk' : (a.1 == k) = false := by simpa using hk
      simp [List.find?, hk', Option.or_none, ih hnod.2]

/-- Normalization of a list-of-objects answers equals normalization of the
mapping with the same entries, for duplicate-free keys. -/
theorem normalize_list_eq_dict (l : List (String × JsonVal)) (k : String)
    (h : (l.map Prod.fst).Nodup) :
    (Answers.list l).normalize k = (Answers.dict l).normalize k := by
  simp only [Answers.normalize, listLookup, mapLookup,
    find?_reverse_nodup_keys l k h]

/-- Claim C5: a payload whose answers are a list of question_id/value
objects and the equivalent payload whose answers are the mapping with the
same entries build to an identical 8-field FeatureVector. -/
theorem build_list_dict_equiv :
    ∀ (p : SessionPayload) (l : List (String × JsonVal)),
      (l.map Prod.fst).Nodup →
      build { p with answers := Answers.list l } =
        build { p with answers := Answers.dict l } := by
  intro p l h
  have hn : ∀ k, (Answers.list l).normalize k = (Answers.dict l).normalize k :=
    fun k => normalize_list_eq_dict l k h
  simp [build, hn]

/-- Claim C5 witness: the three-entry list answers and the equivalent
mapping answers build to the same vector. -/
theorem build_list_dict_equiv_witness :
    (demoAnswersList.map Prod.fst).Nodup ∧
    build { basePayload with answers := Answers.list demoAnswersList } =
      build { basePayload with answers := Answers.dict demoAnswersList } :=
  ⟨by decide, build_list_dict_equiv basePayload demoAnswersList (by decide)⟩

/-- A question input that passes validation parses to a value within the
question's range. -/
theorem validateInput_none (parse : String → Option ℚ) (q : Question)
    (v : String) (h : validateInput parse q v = none) :
    ∃ n, parse v = some n ∧ q.lo ≤ n ∧ n ≤ q.hi := by
  unfold validateInput at h
  by_cases hv : v = ("")
  · rw [if_pos hv] at h
    exact absurd h (by simp)
  · rw [if_neg hv] at h
    cases hp : parse v with
    | none =>
      rw [hp] at h
      exact absurd h (by simp)
    | some n =>
      rw [hp] at h
      dsimp only at h
      by_cases hr : n < q.lo ∨ n > q.hi
      · rw [if_pos hr] at h
        exact absurd h (by simp)
      · push_neg at hr
        exact ⟨n, rfl, hr.1, hr.2⟩

/-- Claim C10: whenever the questionnaire fires onComplete, the submitted
answers list is exactly the three entries sleep_hours, energy_level and
stress_level, in that order, with values in [0,24], [0,10] and [0,10];
empty, unparseable or out-of-range input never reaches onComplete. -/
theorem questionnaire_submit_validated :
    ∀ (parse : String → Option ℚ) (answers : String → String)
      (l : List (String × ℚ)),
      handleSubmit parse answers = some l →
      ∃ v1 v2 v3,
        l = [(("sleep_hours"), v1), (("energy_level"), v2),
             (("stress_level"), v3)] ∧
        0 ≤ v1 ∧ v1 ≤ 24 ∧ 0 ≤ v2 ∧ v2 ≤ 10 ∧ 0 ≤ v3 ∧ v3 ≤ 10 := by
  intro parse answers l h
  unfold handleSubmit at h
  by_cases hall :
      questions.all (fun q => (validateInput parse q (answers q.id)).isNone)
        = true
  · rw [if_pos hall] at h
    have hl := Option.some.inj h
    simp only [questions, List.all_cons, List.all_nil, Bool.and_eq_true,
      Bool.and_true, and_true, Option.isNone_iff_eq_none] at hall
    obtain ⟨h1, h2, h3⟩ := hall
    obtain ⟨n1, hp1, hlo1, hhi1⟩ := validateInput_none _ _ _ h1
    obtain ⟨n2, hp2, hlo2, hhi2⟩ := validateInput_none _ _ _ h2
    obtain ⟨n3, hp3, hlo3, hhi3⟩ := validateInput_none _ _ _ h3
    refine ⟨n1, n2, n3, ?_, hlo1, hhi1, hlo2, hhi2, hlo3, hhi3⟩
    rw [← hl]
    simp [questions, hp1, hp2, hp3]
  · rw [if_neg hall] at h
    exact absurd h (by simp)

/-- Claim C10 witness: a concrete valid submission produces the ordered
three-entry list with in-range values. -/
theorem questionnaire_submit_validated_witness :
    ∃ v1 v2 v3,
      ([(("sleep_hours"), (7 : ℚ)), (("energy_level"), 5),
        (("stress_level"), 3)] : List (String × ℚ)) =
        [(("sleep_hours"), v1), (("energy_level"), v2),
         (("stress_level"), v3)] ∧
      0 ≤ v1 ∧ v1 ≤ 24 ∧ 0 ≤ v2 ∧ v2 ≤ 10 ∧ 0 ≤ v3 ∧ v3 ≤ 10 :=
  questionnaire_submit_validated demoParse demoAnswerStrings _ (by decide)

end NeuroFit
